import Mathlib

/-!
Shallow embedding of the instrument-driver adapter layer of
`qcodes_contrib_drivers` (Keithley 6430 SMU driver, Thorlabs Kinesis core,
Swabian Instruments TimeTagger private module), together with theorems
settling the specification claims about it.

Machine floats that appear in the Python sources (`float(...)` parsing of
instrument replies) are modelled as exact decimal rationals: every claim at
stake concerns the count, order and provenance of the parsed values, none
concerns binary rounding.
-/

/-! ## Keithley 6430 SMU driver (`Keithley_6430.py`)

The instrument is modelled as the state of the device registers the driver
actually queries, together with the reply it returns to the one composite
`:READ?` query. -/

/-- The observable state of the Keithley 6430 instrument, as far as the
driver's `read()` / `_read_value()` paths query it.

* `outp` is the output-stage register (queried with `OUTP?`).
* `sourCleAuto` is the auto-off policy register (written with
  `:SOUR:CLE:AUTO ...`; note that the driver never queries it back).
* `senseFunc` is the raw reply to `SENS:FUNC?` (quotes included).
* `readReply` is the reply to `:READ?`.
* `shortName` is the instrument short name used in warning texts. -/
structure KDevState where
  outp : Bool
  sourCleAuto : Bool
  senseFunc : String
  readReply : String
  shortName : String
deriving DecidableEq

/-- The line-oriented transport: map a query string to the instrument reply,
following the registers of `KDevState`.  Boolean registers reply with the
`on_off_vals` mapping (`on_val=1`, `off_val=0`). -/
def kAsk (st : KDevState) (q : String) : String :=
  if q == "OUTP?" then (if st.outp then "1" else "0")
  else if q == ":SOUR:CLE:AUTO?" then (if st.sourCleAuto then "1" else "0")
  else if q == "SENS:FUNC?" then st.senseFunc
  else if q == ":READ?" then st.readReply
  else ""

/-- Getter of the `output_enabled` parameter: `get_cmd='OUTP?'` with the
`on_off_vals` value mapping. -/
def output_enabled (st : KDevState) : Bool :=
  kAsk st "OUTP?" == "1"

/-- Getter of the `output_auto_off` parameter.  As declared in the source
(lines 136-140), its `get_cmd` is `'OUTP?'` — the output-stage query — even
though its `set_cmd` is `':SOUR:CLE:AUTO ...'`. -/
def output_auto_off (st : KDevState) : Bool :=
  kAsk st "OUTP?" == "1"

/-- Getter of the `sense_mode` parameter (`_get_sense_mode`): query
`SENS:FUNC?` and strip every double-quote character from the reply (Python
`ans.replace('"', '')` with a one-character pattern deletes exactly the
occurrences of that character). -/
def sense_mode_get (st : KDevState) : String :=
  String.mk ((kAsk st "SENS:FUNC?").toList.filter (fun c => c ≠ '\x22'))

/-- Python `s.split(',')` on the character list of `s`: cut at every comma;
the empty string splits to `[""]`. -/
def splitFields : List Char → List (List Char)
  | [] => [[]]
  | c :: rest =>
      match splitFields rest with
      | [] => [[]]
      | f :: fs => if c = ',' then [] :: f :: fs else (c :: f) :: fs

/-- Numeric value of a decimal digit character. -/
def digitToNat (c : Char) : Nat := c.toNat - 48

/-- The natural number denoted by a list of decimal digit characters. -/
def natFromDigits (cs : List Char) : Nat :=
  cs.foldl (fun acc c => 10 * acc + digitToNat c) 0

/-- Parse an unsigned decimal literal (an optional integer part, optionally
followed by a dot and a fractional part, at least one digit overall) into an
exact rational.  Together with `parsePyFloat` this models the behaviour of
Python `float()` on the plain decimal literals the instrument replies with;
a string outside that fragment parses to `none` (Python raises
`ValueError`). -/
def parseUnsignedDec (cs : List Char) : Option ℚ :=
  let ip := cs.takeWhile (fun c => c ≠ '.')
  match cs.dropWhile (fun c => c ≠ '.') with
  | [] =>
      if ip.all Char.isDigit ∧ ip ≠ [] then some (natFromDigits ip : ℚ)
      else none
  | _ :: fp =>
      if fp.all Char.isDigit ∧ ip.all Char.isDigit ∧ (ip ≠ [] ∨ fp ≠ []) then
        some ((natFromDigits ip : ℚ) + (natFromDigits fp : ℚ) / (10 ^ fp.length : ℚ))
      else none

/-- Model of Python `float(s)` on plain decimal literals: optional sign, then
an unsigned decimal literal. -/
def parsePyFloat (s : String) : Option ℚ :=
  match s.toList with
  | '-' :: rest => (parseUnsignedDec rest).map (fun q => -q)
  | '+' :: rest => parseUnsignedDec rest
  | cs => parseUnsignedDec cs

/-- Errors the modelled driver paths can raise. -/
inductive KErr where
  /-- The usage exception raised by `read()` when neither `output_enabled`
  nor `output_auto_off` report on. -/
  | usage
  /-- Python `ValueError` from `float()` on a malformed field. -/
  | parseFailure (field : String)
  /-- Python `IndexError` from indexing past the end of the value list. -/
  | indexOut (i : Nat)
deriving DecidableEq

/-- The list comprehension `[float(n) for n in s.split(',')]`: every field is
parsed (a malformed field anywhere raises, even past the third one). -/
def parseFields : List String → Except KErr (List ℚ)
  | [] => Except.ok []
  | f :: rest =>
      match parsePyFloat f with
      | none => Except.error (KErr.parseFailure f)
      | some q =>
          match parseFields rest with
          | Except.error e => Except.error e
          | Except.ok qs => Except.ok (q :: qs)

/-- The comma-separated fields of the `:READ?` reply, as strings. -/
def readFields (st : KDevState) : List String :=
  (splitFields (kAsk st ":READ?").toList).map (fun cs => String.mk cs)

/-- `Keithley_6430.read()`: raise the usage error unless
`output_enabled() or output_auto_off()`; otherwise ask `:READ?`, split the
reply at commas, parse every field as a float, and return the first three
values (`[...][:3]`). -/
def Keithley_read (st : KDevState) : Except KErr (List ℚ) :=
  if !(output_enabled st || output_auto_off st) then
    Except.error KErr.usage
  else
    match parseFields (readFields st) with
    | Except.error e => Except.error e
    | Except.ok qs => Except.ok (qs.take 3)

/-- Python substring containment (`needle in hay`). -/
def strContainsSub (hay needle : String) : Bool :=
  decide (needle.toList <:+: hay.toList)

/-- The stale-read warning text issued by `_read_value`. -/
def staleWarning (shortName quantity modeNow : String) : String :=
  shortName ++ " tried reading " ++ quantity ++ ", but mode is set to " ++
    modeNow ++ ". Value might be old."

/-- The positional mapping `{"VOLT:DC": 0, "CURR:DC": 1, "RES": 2}`. -/
def quantityIndex (q : String) : Option Nat :=
  if q == "VOLT:DC" then some 0
  else if q == "CURR:DC" then some 1
  else if q == "RES" then some 2
  else none

/-- `Keithley_6430._read_value(quantity)`: read the sense mode, warn if the
requested quantity is not a substring of it, then call `read()` and index
into the returned values.  The first component collects emitted warnings,
the second is the returned value or the escaping error. -/
def Keithley_read_value (st : KDevState) (quantity : String) :
    List String × Except KErr ℚ :=
  let modeNow := sense_mode_get st
  let warns :=
    if strContainsSub modeNow quantity then []
    else [staleWarning st.shortName quantity modeNow]
  match Keithley_read st with
  | Except.error e => (warns, Except.error e)
  | Except.ok qs =>
      match quantityIndex quantity with
      | none => (warns, Except.error (KErr.indexOut 0))
      | some i =>
          match qs[i]? with
          | none => (warns, Except.error (KErr.indexOut i))
          | some v => (warns, Except.ok v)

/-- A device state with the auto-off policy register enabled but the output
stage disabled. -/
def stAutoOffOn : KDevState :=
  { outp := false, sourCleAuto := true, senseFunc := "\x22VOLT:DC\x22",
    readReply := "1.0,2.0,3.0", shortName := "smu" }

example : Keithley_read stAutoOffOn = Except.error KErr.usage := by rfl
example : parsePyFloat "1.23" = some (123 / 100 : ℚ) := by
  simp [parsePyFloat, parseUnsignedDec, natFromDigits, digitToNat]
  norm_num

/-- When every field parses, `parseFields` succeeds and returns the parses
positionally. -/
theorem parseFields_ok (fs : List String)
    (h : ∀ f ∈ fs, (parsePyFloat f).isSome) :
    ∃ xs, parseFields fs = Except.ok xs ∧ xs.length = fs.length ∧
      ∀ i : Nat, xs[i]? = (fs[i]?).bind parsePyFloat := by
  induction fs with
  | nil => exact ⟨[], rfl, rfl, fun i => by simp⟩
  | cons f rest ih =>
      obtain ⟨q, hq⟩ := Option.isSome_iff_exists.mp (h f (by simp))
      obtain ⟨xs, hx, hlen, hpos⟩ := ih (fun g hg => h g (by simp [hg]))
      refine ⟨q :: xs, ?_, by simp [hlen], ?_⟩
      · simp [parseFields, hq, hx]
      · intro i
        cases i with
        | zero => simp [hq]
        | succ j => simpa using hpos j

/-- C1: the spec claims `read()` raises the usage error iff both the output
stage and the auto-off policy are disabled, and in particular proceeds when
the auto-off policy is enabled while the output stage is off.  The code
contradicts this (and its own exception text): since `output_auto_off` is
declared with `get_cmd='OUTP?'`, `read()` queries the output stage twice and
raises whenever the output stage is off — here on a device whose auto-off
register is enabled. -/
theorem keithley_read_raises_despite_auto_off :
    stAutoOffOn.sourCleAuto = true ∧
    stAutoOffOn.outp = false ∧
    output_auto_off stAutoOffOn = false ∧
    Keithley_read stAutoOffOn = Except.error KErr.usage :=
  ⟨rfl, rfl, rfl, rfl⟩

/-- A device state whose `:READ?` reply has only two comma-separated
fields. -/
def stShortReply : KDevState :=
  { outp := true, sourCleAuto := false,
    senseFunc := "\x22VOLT:DC\x22,\x22CURR:DC\x22",
    readReply := "1.23,4.56", shortName := "smu" }

/-- C2 counterexample: `read()` with output enabled does not return exactly
three floats for every reply — on the reply `"1.23,4.56"` it returns two. -/
theorem keithley_read_two_fields :
    (Keithley_read stShortReply).map List.length = Except.ok 2 ∧
    ¬ (Keithley_read stShortReply).map List.length = Except.ok 3 := by
  refine ⟨rfl, ?_⟩
  rw [show (Keithley_read stShortReply).map List.length = Except.ok 2 from rfl]
  simp

/-- C2 (amended): with output enabled, whenever the `:READ?` reply has at
least three comma-separated fields and every field parses as a float,
`read()` returns exactly three floats, positionally the parses of the first
three fields (replies with fewer fields return correspondingly fewer
values). -/
theorem keithley_read_first_three (st : KDevState)
    (hout : (output_enabled st || output_auto_off st) = true)
    (hlen : 3 ≤ (readFields st).length)
    (hp : ∀ f ∈ readFields st, (parsePyFloat f).isSome) :
    ∃ xs, Keithley_read st = Except.ok xs ∧ xs.length = 3 ∧
      ∀ i : Nat, i < 3 → xs[i]? = ((readFields st)[i]?).bind parsePyFloat := by
  obtain ⟨ys, hy, hylen, hypos⟩ := parseFields_ok (readFields st) hp
  refine ⟨ys.take 3, ?_, ?_, ?_⟩
  · simp [Keithley_read, hout, hy]
  · simp only [List.length_take, hylen]
    omega
  · intro i hi
    rw [List.getElem?_take, if_pos hi, hypos i]

/-- A device state replying to `:READ?` with the three fields of the spec
example. -/
def stThreeFields : KDevState :=
  { outp := true, sourCleAuto := false, senseFunc := "\x22CURR:DC\x22",
    readReply := "1.23,4.56,7.89", shortName := "smu" }

/-- Witness for C2 (amended) at the spec example reply
`"1.23,4.56,7.89"`. -/
theorem keithley_read_first_three_witness :
    ∃ xs, Keithley_read stThreeFields = Except.ok xs ∧ xs.length = 3 ∧
      ∀ i : Nat, i < 3 →
        xs[i]? = ((readFields stThreeFields)[i]?).bind parsePyFloat :=
  keithley_read_first_three stThreeFields rfl (by decide) (by decide)

/-- C10: reading `sense_current` while the sense mode does not contain
`"CURR:DC"` (output-enabled precondition holding and the reply having at
least two parseable fields) emits exactly the stale-value warning and still
returns a float — no error is raised. -/
theorem keithley_sense_current_stale_warning (st : KDevState)
    (hout : (output_enabled st || output_auto_off st) = true)
    (hmode : strContainsSub (sense_mode_get st) "CURR:DC" = false)
    (hlen : 2 ≤ (readFields st).length)
    (hp : ∀ f ∈ readFields st, (parsePyFloat f).isSome) :
    ∃ q, Keithley_read_value st "CURR:DC" =
      ([staleWarning st.shortName "CURR:DC" (sense_mode_get st)],
        Except.ok q) := by
  obtain ⟨ys, hy, hylen, hypos⟩ := parseFields_ok (readFields st) hp
  have hread : Keithley_read st = Except.ok (ys.take 3) := by
    simp [Keithley_read, hout, hy]
  have h13 : (1 : Nat) < 3 := by omega
  have h1y : (1 : Nat) < ys.length := by omega
  have hv : (ys.take 3)[1]? = some ys[1] := by
    rw [List.getElem?_take, if_pos h13, List.getElem?_eq_getElem h1y]
  have hqi : quantityIndex "CURR:DC" = some 1 := rfl
  exact ⟨ys[1], by simp [Keithley_read_value, hmode, hread, hqi, hv]⟩

/-- A device state sensing `VOLT:DC` only, with the output stage enabled. -/
def stVoltMode : KDevState :=
  { outp := true, sourCleAuto := false, senseFunc := "\x22VOLT:DC\x22",
    readReply := "1.23,4.56,7.89", shortName := "smu" }

/-- Witness for C10 on a device sensing `VOLT:DC` only. -/
theorem keithley_sense_current_stale_warning_witness :
    ∃ q, Keithley_read_value stVoltMode "CURR:DC" =
      ([staleWarning stVoltMode.shortName "CURR:DC"
          (sense_mode_get stVoltMode)], Except.ok q) :=
  keithley_sense_current_stale_warning stVoltMode rfl (by decide) (by decide)
    (by decide)

/-! ### The `source_voltage` validated setter (C3)

The declaration of the `source_voltage` parameter in the source gives the
range validator `Numbers(-210, 210)` and the command format
`SOUR:VOLT:LEV <value>`; the generic set machinery itself lives in the host
qcodes framework, outside this repository. -/

/-- Modelled from the spec: the qcodes `Parameter.set` machinery with a
declared `Numbers(lo, hi)` validator is not part of this repository's
sources (only the declaration is).  Per the spec, `set(value)` "validates
the value against a declared numeric range or enumeration, formats it into
a command string, and writes it", and an out-of-range value "must be
rejected before any transport write occurs".  `written` is the transport
write log; a validation failure leaves it untouched. -/
def paramSet (lo hi : ℚ) (fmt : ℚ → String) (v : ℚ)
    (written : List String) : Except String (List String) :=
  if lo ≤ v ∧ v ≤ hi then Except.ok (written ++ [fmt v])
  else Except.error "value outside declared range"

/-- The `source_voltage` setter: validator `Numbers(-210, 210)`, command
`SOUR:VOLT:LEV <value>`. -/
def source_voltage_set (v : ℚ) (written : List String) :
    Except String (List String) :=
  paramSet (-210) 210 (fun x => "SOUR:VOLT:LEV " ++ toString x) v written

/-- C3: setting `source_voltage` to a value outside its declared range
-210..210 fails validation and performs no transport write: no command
string for the value is ever appended to the write log. -/
theorem source_voltage_set_rejects_out_of_range (v : ℚ)
    (written : List String) (h : v < -210 ∨ 210 < v) :
    source_voltage_set v written = Except.error "value outside declared range" ∧
    ∀ cmds, ¬ source_voltage_set v written = Except.ok cmds := by
  have hcond : ¬ ((-210 : ℚ) ≤ v ∧ v ≤ 210) := by
    rintro ⟨h1, h2⟩
    rcases h with h | h <;> linarith
  refine ⟨by simp [source_voltage_set, paramSet, hcond], ?_⟩
  intro cmds hc
  simp [source_voltage_set, paramSet, hcond] at hc

/-- Witness for C3 at the out-of-range value 300. -/
theorem source_voltage_set_rejects_out_of_range_witness :
    source_voltage_set 300 [] = Except.error "value outside declared range" ∧
    ∀ cmds, ¬ source_voltage_set 300 [] = Except.ok cmds :=
  source_voltage_set_rejects_out_of_range 300 [] (Or.inr (by norm_num))

/-! ## Thorlabs Kinesis core (`private/kinesis/core.py`) -/

/-- The `ERROR_CODES` table: numeric native status code to status name. -/
def ERROR_CODES : List (Nat × String) :=
  [(0, "FT_OK"),
   (1, "FT_InvalidHandle"),
   (2, "FT_DeviceNotFound"),
   (3, "FT_DeviceNotOpened"),
   (4, "FT_IOError"),
   (5, "FT_InsufficientResources"),
   (6, "FT_InvalidParameter"),
   (7, "FT_DeviceNotPresent"),
   (8, "FT_IncorrectDevice"),
   (16, "FT_NoDLLLoaded"),
   (17, "FT_NoFunctionsAvailable"),
   (18, "FT_FunctionNotAvailable"),
   (19, "FT_BadFunctionPointer"),
   (20, "FT_GenericFunctionFail"),
   (21, "FT_SpecificFunctionFail"),
   (0x20, "TL_ALREADY_OPEN"),
   (0x21, "TL_NO_RESPONSE"),
   (0x22, "TL_NOT_IMPLEMENTED"),
   (0x23, "TL_FAULT_REPORTED"),
   (0x24, "TL_INVALID_OPERATION"),
   (0x28, "TL_DISCONNECTING"),
   (0x29, "TL_FIRMWARE_BUG"),
   (0x2A, "TL_INITIALIZATION_FAILURE"),
   (0x2B, "TL_INVALID_CHANNEL"),
   (0x25, "TL_UNHOMED"),
   (0x26, "TL_INVALID_POSITION"),
   (0x27, "TL_INVALID_VELOCITY_PARAMETER"),
   (0x2C, "TL_CANNOT_HOME_DEVICE"),
   (0x2D, "TL_JOG_CONTINUOUS_MODE"),
   (0x2E, "TL_NO_MOTOR_INFO"),
   (0x2F, "TL_CMD_TEMP_UNAVAILABLE")]

/-- The `ERROR_MESSAGES` table: status name to human-readable message.  Note
the `TL_JOG_CONTINOUS_MODE` key, spelled differently from the
`TL_JOG_CONTINUOUS_MODE` entry of `ERROR_CODES`. -/
def ERROR_MESSAGES : List (String × String) :=
  [("FT_OK", "Success"),
   ("FT_InvalidHandle", "The FTDI functions have not been initialized."),
   ("FT_DeviceNotFound",
    "The Device could not be found. This can be generated if the function TLI_BuildDeviceList() has not been called."),
   ("FT_DeviceNotOpened",
    "The Device must be opened before it can be accessed. See the appropriate Open function for your device."),
   ("FT_IOError", "An I/O Error has occured in the FTDI chip."),
   ("FT_InsufficientResources",
    "There are Insufficient resources to run this application."),
   ("FT_InvalidParameter",
    "An invalid parameter has been supplied to the device."),
   ("FT_DeviceNotPresent",
    "The Device is no longer present. The device may have been disconnected since the last TLI_BuildDeviceList() call."),
   ("FT_IncorrectDevice",
    "The device detected does not match that expected."),
   ("FT_NoDLLLoaded", "The library for this device could not be found."),
   ("FT_NoFunctionsAvailable", "No functions available for this device."),
   ("FT_FunctionNotAvailable",
    "The function is not available for this device."),
   ("FT_BadFunctionPointer", "Bad function pointer detected."),
   ("FT_GenericFunctionFail",
    "The function failed to complete succesfully."),
   ("FT_SpecificFunctionFail",
    "The function failed to complete succesfully"),
   ("TL_ALREADY_OPEN", "Attempt to open a device that was already open."),
   ("TL_NO_RESPONSE", "The device has stopped responding."),
   ("TL_NOT_IMPLEMENTED", "This function has not been implemented."),
   ("TL_FAULT_REPORTED", "The device has reported a fault."),
   ("TL_INVALID_OPERATION",
    "The function could not be completed at this time."),
   ("TL_DISCONNECTING",
    "The function could not be completed because the device is disconnected."),
   ("TL_FIRMWARE_BUG", "The firmware has thrown an error."),
   ("TL_INITIALIZATION_FAILURE", "The device has failed to initialize."),
   ("TL_INVALID_CHANNEL", "An Invalid channel address was supplied."),
   ("TL_UNHOMED",
    "The device cannot perform this function until it has been Homed."),
   ("TL_INVALID_POSITION",
    "The function cannot be performed as it would result in an illegal position."),
   ("TL_INVALID_VELOCITY_PARAMETER",
    "An invalid velocity parameter was supplied. The velocity must be greater than zero."),
   ("TL_CANNOT_HOME_DEVICE",
    "This device does not support Homing. Check the Limit switch parameters are correct."),
   ("TL_JOG_CONTINOUS_MODE",
    "An invalid jog mode was supplied for the jog function."),
   ("TL_NO_MOTOR_INFO",
    "There is no Motor Parameters available to convert Real World Units."),
   ("TL_CMD_TEMP_UNAVAILABLE",
    "Command temporarily unavailable, Device may be busy.")]

/-- Python `dict.get` on the numeric code table. -/
def codesGet (code : Nat) : Option String :=
  (ERROR_CODES.find? (fun p => p.1 == code)).map (fun p => p.2)

/-- Python `dict[key]` lookup on the message table, `none` meaning a
`KeyError`. -/
def messagesGet (status : String) : Option String :=
  (ERROR_MESSAGES.find? (fun p => p.1 == status)).map (fun p => p.2)

/-- Outcome of a call wrapped by `error_check`. -/
inductive CheckOutcome where
  /-- The call returned `FT_OK`; nothing is raised. -/
  | ok
  /-- A `KinesisError` carrying the given message is raised. -/
  | kinesisError (msg : String)
  /-- A `KeyError` for the given key (the status name, or `none` for a
  `None` status from an unrecognized code) escapes while the error message
  is being built. -/
  | keyError (key : Option String)
deriving DecidableEq

/-- `error_check`: look the returned status code up in `ERROR_CODES`; on
anything but `FT_OK`, raise a `KinesisError` with message
`f'{status}: {ERROR_MESSAGES[status]}'` — the message-table lookup itself
raising a `KeyError` when the status name is not a key there. -/
def error_check (code : Nat) : CheckOutcome :=
  let status := codesGet code
  if status == some "FT_OK" then CheckOutcome.ok
  else
    match status with
    | some s =>
        match messagesGet s with
        | some m => CheckOutcome.kinesisError (s ++ ": " ++ m)
        | none => CheckOutcome.keyError (some s)
    | none => CheckOutcome.keyError none

/-- C4 counterexample: the error raised for status code `0x26` does not
carry the bare `TL_INVALID_POSITION` table entry as its message — the
message is prefixed with the status name. -/
theorem error_check_0x26_message_not_table_entry :
    ¬ error_check 0x26 = CheckOutcome.kinesisError
      "The function cannot be performed as it would result in an illegal position." := by
  rw [show error_check 0x26 = CheckOutcome.kinesisError
    "TL_INVALID_POSITION: The function cannot be performed as it would result in an illegal position."
    from rfl]
  simp

/-- C4 (amended): an error-coded native call returning `0x26` raises a
`KinesisError` whose message is the status name `TL_INVALID_POSITION`, a
colon-space separator, and then the `ERROR_MESSAGES` table entry for
`TL_INVALID_POSITION`. -/
theorem error_check_0x26_message :
    error_check 0x26 = CheckOutcome.kinesisError
      ("TL_INVALID_POSITION" ++ ": " ++
        "The function cannot be performed as it would result in an illegal position.") ∧
    messagesGet "TL_INVALID_POSITION" = some
      "The function cannot be performed as it would result in an illegal position." :=
  ⟨rfl, rfl⟩

/-- C5: status code `0x2D` is recognized (the numeric table maps it to
`TL_JOG_CONTINUOUS_MODE`), but the message table only has the differently
spelled key `TL_JOG_CONTINOUS_MODE`, so the message lookup fails: a
key-lookup error escapes instead of the uniform `KinesisError`. -/
theorem error_check_0x2D_key_error_escapes :
    codesGet 0x2D = some "TL_JOG_CONTINUOUS_MODE" ∧
    messagesGet "TL_JOG_CONTINUOUS_MODE" = none ∧
    error_check 0x2D = CheckOutcome.keyError (some "TL_JOG_CONTINUOUS_MODE") ∧
    ∀ msg, ¬ error_check 0x2D = CheckOutcome.kinesisError msg := by
  refine ⟨rfl, rfl, rfl, ?_⟩
  intro msg h
  rw [show error_check 0x2D =
    CheckOutcome.keyError (some "TL_JOG_CONTINUOUS_MODE") from rfl] at h
  exact CheckOutcome.noConfusion h

/-! ### Device discovery (`list_available_devices`, C6)

The native side is modelled by the reported device-list size `n`
(`TLI_GetDeviceListSize`) and by the assignment `serialsOf` mapping each
hardware-type id to the list of serial numbers
`TLI_GetDeviceListByTypeExt` reports for it (the comma-joined buffer,
already split).  The loop body appends, for a non-empty buffer, the pair of
the hardware-type id and the first serial of the buffer
(`serialNo.value.split(b',')[0]`), and breaks as soon as
`len(devices) == n`. -/

/-- The `for hw_type_id in hw_type_ids` loop of `list_available_devices`,
with `devs` the accumulated `devices` list. -/
def discoveryLoop (serialsOf : Nat → List Nat) (n : Nat) :
    List Nat → List (Nat × Nat) → List (Nat × Nat)
  | [], devs => devs
  | hwId :: rest, devs =>
      let devs2 :=
        match serialsOf hwId with
        | [] => devs
        | s :: _ => devs ++ [(hwId, s)]
      if devs2.length = n then devs2
      else discoveryLoop serialsOf n rest devs2

/-- `list_available_devices`: return `[]` for a zero reported size, else run
the per-hardware-type query loop. -/
def list_available_devices (serialsOf : Nat → List Nat) (ids : List Nat)
    (n : Nat) : List (Nat × Nat) :=
  if n = 0 then [] else discoveryLoop serialsOf n ids []

/-- Every entry the discovery loop returns either was in the accumulator or
pairs a queried id with a serial that id reports, and the hardware-type ids
of the result stay pairwise distinct. -/
theorem discoveryLoop_entries (serialsOf : Nat → List Nat) (n : Nat) :
    ∀ (ids : List Nat) (devs : List (Nat × Nat)), ids.Nodup →
      (devs.map Prod.fst).Nodup → (∀ p ∈ devs, p.1 ∉ ids) →
      (∀ p ∈ discoveryLoop serialsOf n ids devs,
        p ∈ devs ∨ (p.1 ∈ ids ∧ p.2 ∈ serialsOf p.1)) ∧
      ((discoveryLoop serialsOf n ids devs).map Prod.fst).Nodup := by
  intro ids
  induction ids with
  | nil =>
      intro devs _ hfst _
      exact ⟨fun p hp => Or.inl hp, hfst⟩
  | cons hwId rest ih =>
      intro devs hnd hfst hout
      have hndRest : rest.Nodup := (List.nodup_cons.mp hnd).2
      have hwNotRest : hwId ∉ rest := (List.nodup_cons.mp hnd).1
      -- Properties of the extended accumulator.
      obtain ⟨devs2, hdef, hmem2, hfst2, hout2⟩ :
          ∃ devs2,
            (match serialsOf hwId with
              | [] => devs
              | s :: _ => devs ++ [(hwId, s)]) = devs2 ∧
            (∀ p ∈ devs2, p ∈ devs ∨ (p.1 = hwId ∧ p.2 ∈ serialsOf p.1)) ∧
            (devs2.map Prod.fst).Nodup ∧ (∀ p ∈ devs2, p.1 ∉ rest) := by
        match hs : serialsOf hwId with
        | [] =>
            refine ⟨devs, rfl, fun p hp => Or.inl hp, hfst, ?_⟩
            intro p hp hpr
            exact hout p hp (List.mem_cons_of_mem _ hpr)
        | s :: tl =>
            refine ⟨devs ++ [(hwId, s)], rfl, ?_, ?_, ?_⟩
            · intro p hp
              rcases List.mem_append.mp hp with hp | hp
              · exact Or.inl hp
              · rcases List.mem_singleton.mp hp with rfl
                exact Or.inr ⟨rfl, by rw [hs]; exact List.mem_cons_self _ _⟩
            · rw [List.map_append, List.nodup_append]
              refine ⟨hfst, List.nodup_singleton _, ?_⟩
              intro a ha hb
              rcases List.mem_singleton.mp hb with rfl
              obtain ⟨p, hp, rfl⟩ := List.mem_map.mp ha
              exact hout p hp (List.mem_cons_self _ _)
            · intro p hp hpr
              rcases List.mem_append.mp hp with hp | hp
              · exact hout p hp (List.mem_cons_of_mem _ hpr)
              · rcases List.mem_singleton.mp hp with rfl
                exact hwNotRest hpr
      have hlift : ∀ p, (p ∈ devs ∨ (p.1 = hwId ∧ p.2 ∈ serialsOf p.1)) →
          p ∈ devs ∨ (p.1 ∈ hwId :: rest ∧ p.2 ∈ serialsOf p.1) := by
        rintro p (hp | ⟨h1, h2⟩)
        · exact Or.inl hp
        · exact Or.inr ⟨h1 ▸ List.mem_cons_self _ _, h2⟩
      rw [discoveryLoop, hdef]
      by_cases hlen : devs2.length = n
      · rw [if_pos hlen]
        exact ⟨fun p hp => hlift p (hmem2 p hp), hfst2⟩
      · rw [if_neg hlen]
        obtain ⟨ihmem, ihfst⟩ := ih devs2 hndRest hfst2 hout2
        refine ⟨?_, ihfst⟩
        intro p hp
        rcases ihmem p hp with hp2 | ⟨h1, h2⟩
        · exact hlift p (hmem2 p hp2)
        · exact Or.inr ⟨List.mem_cons_of_mem _ h1, h2⟩

/-- Once the accumulated device count reaches `n`, the loop returns without
touching the remaining hardware-type ids. -/
theorem discoveryLoop_stops (serialsOf : Nat → List Nat) (n : Nat)
    (rest : List Nat) :
    ∀ (ids : List Nat) (devs : List (Nat × Nat)), devs.length ≠ n →
      (discoveryLoop serialsOf n ids devs).length = n →
      discoveryLoop serialsOf n (ids ++ rest) devs =
        discoveryLoop serialsOf n ids devs := by
  intro ids
  induction ids with
  | nil =>
      intro devs hne hlen
      exact absurd hlen hne
  | cons hwId tl ih =>
      intro devs _ hlen
      rw [List.cons_append, discoveryLoop]
      rw [discoveryLoop] at hlen ⊢
      by_cases h2 : (match serialsOf hwId with
          | [] => devs
          | s :: _ => devs ++ [(hwId, s)]).length = n
      · rw [if_pos h2]
        rw [if_pos h2]
      · rw [if_neg h2]
        rw [if_neg h2] at hlen ⊢
        exact ih _ h2 hlen

/-- An assignment under which hardware-type ids 1 and 2 both report serial
number 123. -/
def serialsShared (i : Nat) : List Nat := if i = 1 ∨ i = 2 then [123] else []

/-- C6 counterexample: under the assignment reporting serial 123 for both
queried hardware-type ids 1 and 2 with reported size 2, discovery returns
the serial number 123 twice. -/
theorem discovery_duplicate_serial :
    list_available_devices serialsShared [1, 2] 2 = [(1, 123), (2, 123)] ∧
    ¬ ((list_available_devices serialsShared [1, 2] 2).map Prod.snd).Nodup := by
  refine ⟨rfl, ?_⟩
  rw [show list_available_devices serialsShared [1, 2] 2 =
    [(1, 123), (2, 123)] from rfl]
  decide

/-- C6 (amended): provided the queried hardware-type ids are pairwise
distinct and distinct ids report disjoint serial sets (each physical serial
number belongs to one hardware type), no serial number appears twice in the
discovery result; and unconditionally, as soon as the collected device
count equals the reported size `n`, the loop stops — the remaining
hardware-type ids are never queried. -/
theorem discovery_nodup_and_early_stop (serialsOf : Nat → List Nat)
    (ids rest : List Nat) (n : Nat) (hnd : ids.Nodup)
    (hdisj : ∀ i ∈ ids, ∀ j ∈ ids, i ≠ j →
      ∀ s, s ∈ serialsOf i → s ∉ serialsOf j) :
    ((list_available_devices serialsOf ids n).map Prod.snd).Nodup ∧
    (n ≠ 0 → (list_available_devices serialsOf ids n).length = n →
      list_available_devices serialsOf (ids ++ rest) n =
        list_available_devices serialsOf ids n) := by
  constructor
  · by_cases hn : n = 0
    · simp [list_available_devices, hn]
    · rw [list_available_devices, if_neg hn]
      obtain ⟨hmem, hfst⟩ :=
        discoveryLoop_entries serialsOf n ids [] hnd (by simp) (by simp)
      refine List.Nodup.map_on ?_ (List.Nodup.of_map _ hfst)
      intro p hp q hq hpq
      rcases hmem p hp with hpin | ⟨hp1, hp2⟩
      · simp at hpin
      rcases hmem q hq with hqin | ⟨hq1, hq2⟩
      · simp at hqin
      by_cases hfstpq : p.1 = q.1
      · exact Prod.ext hfstpq hpq
      · exact absurd (hpq ▸ hp2)
          (hdisj q.1 hq1 p.1 hp1 (fun h => hfstpq h.symm) q.2 hq2)
  · intro hn hlen
    rw [list_available_devices, if_neg hn] at hlen ⊢
    rw [list_available_devices, if_neg hn]
    exact discoveryLoop_stops serialsOf n rest ids []
      (by simpa using fun h => hn h.symm) hlen

/-- An assignment where ids 1 and 2 report the distinct serials 11 and
22. -/
def serialsDistinct (i : Nat) : List Nat :=
  if i = 1 then [11] else if i = 2 then [22] else []

/-- Witness for C6 (amended): two queried ids with disjoint serial reports
and reported size 2; id 3, listed after them, is never queried. -/
theorem discovery_nodup_and_early_stop_witness :
    ((list_available_devices serialsDistinct [1, 2] 2).map Prod.snd).Nodup ∧
    (2 ≠ 0 → (list_available_devices serialsDistinct [1, 2] 2).length = 2 →
      list_available_devices serialsDistinct ([1, 2] ++ [3]) 2 =
        list_available_devices serialsDistinct [1, 2] 2) :=
  discovery_nodup_and_early_stop serialsDistinct [1, 2] [3] 2 (by decide)
    (by
      intro i hi j hj hij s hs hs2
      fin_cases hi <;> fin_cases hj <;>
        simp [serialsDistinct] at hs hs2 <;> omega)

/-! ### Connect / disconnect step sequences (C7)

`KinesisInstrument.connect` and `.disconnect` are embedded as sequences of
transport-level steps acting on a state that records the instrument's
`serialNo` value and the multiset of serials for which a native handle is
currently open.  `close()` and `open()` take the stored serial as implicit
first argument, as the DLL binding does. -/

/-- The state of one Kinesis instrument plus its native library:
`serialNo` mirrors `self._kinesis.serialNo.value`, `openHandles` the
serials with an open native handle, `polling` whether the polling loop
runs. -/
structure KinState where
  serialNo : Option Nat
  openHandles : List Nat
  polling : Bool

/-- One transport-level step of `connect` / `disconnect`. -/
inductive KStep where
  /-- `stop_polling()` -/
  | stopPolling
  /-- `close()`: closes the handle of the currently stored serial. -/
  | closeDev
  /-- `serialNo.value = None` -/
  | clearSerial
  /-- `serialNo.value = str(serial).encode()` -/
  | setSerial (s : Nat)
  /-- `open()`: opens a handle for the currently stored serial. -/
  | openDev
  /-- `start_polling(duration)` -/
  | startPolling
  /-- `load_settings()` -/
  | loadSettings

/-- Effect of one step on the state. -/
def kexec (st : KinState) : KStep → KinState
  | KStep.stopPolling => { st with polling := false }
  | KStep.closeDev =>
      match st.serialNo with
      | some s => { st with openHandles := st.openHandles.erase s }
      | none => st
  | KStep.clearSerial => { st with serialNo := none }
  | KStep.setSerial s => { st with serialNo := some s }
  | KStep.openDev =>
      match st.serialNo with
      | some s => { st with openHandles := s :: st.openHandles }
      | none => st
  | KStep.startPolling => { st with polling := true }
  | KStep.loadSettings => st

/-- The `connected` property: a serial number is stored. -/
def kConnected (st : KinState) : Bool := st.serialNo.isSome

/-- `KinesisInstrument.disconnect`: when connected, stop polling, close the
device, clear the stored serial; otherwise do nothing. -/
def disconnectSteps (st : KinState) : List KStep :=
  if kConnected st then
    [KStep.stopPolling, KStep.closeDev, KStep.clearSerial]
  else []

/-- `KinesisInstrument.connect serial` (with an explicit serial): when
already connected, first run the full `disconnect` sequence — then store
the new serial, open it, start polling, and load settings. -/
def connectSteps (st : KinState) (serial : Nat) : List KStep :=
  disconnectSteps st ++
    [KStep.setSerial serial, KStep.openDev, KStep.startPolling,
     KStep.loadSettings]

/-- States reachable through `connect` / `disconnect` from the initial
disconnected state: either disconnected with no open handle, or connected
with exactly the stored serial's handle open. -/
def KinWF (st : KinState) : Prop :=
  st.openHandles = [] ∨
    ∃ s, st.serialNo = some s ∧ st.openHandles = [s]

/-- No serial has two simultaneously open handles in `st`. -/
def noDoubleOpen (st : KinState) : Prop :=
  ∀ s, st.openHandles.count s ≤ 1

/-- C7: from any reachable state, `connect` releases an existing connection
in full (polling stopped, device closed, serial cleared) before the new
serial is stored and opened; along the whole step sequence no serial ever
has two simultaneously open handles; and the final state is connected to
the new serial with exactly one open handle. -/
theorem kinesis_connect_single_handle (st : KinState) (serial : Nat)
    (hwf : KinWF st) :
    (kConnected st = true → connectSteps st serial =
      [KStep.stopPolling, KStep.closeDev, KStep.clearSerial] ++
        [KStep.setSerial serial, KStep.openDev, KStep.startPolling,
         KStep.loadSettings]) ∧
    (∀ st' ∈ (connectSteps st serial).scanl kexec st, noDoubleOpen st') ∧
    (connectSteps st serial).foldl kexec st =
      { serialNo := some serial, openHandles := [serial], polling := true } := by
  obtain ⟨ser, handles, pol⟩ := st
  rcases hwf with hempty | ⟨s0, hs0, hh⟩
  · simp only [KinState.openHandles] at hempty
    subst hempty
    cases ser with
    | none =>
        refine ⟨?_, ?_, rfl⟩
        · intro h
          exact absurd h (by simp [kConnected])
        · intro st' hst'
          rw [show connectSteps ⟨none, [], pol⟩ serial =
            [KStep.setSerial serial, KStep.openDev, KStep.startPolling,
             KStep.loadSettings] from rfl] at hst'
          simp only [List.scanl, kexec, List.mem_cons,
            List.not_mem_nil, or_false] at hst'
          rcases hst' with h | h | h | h | h <;> subst h <;> intro s <;>
            simp [List.count_cons, List.count_nil] <;> split <;> omega
    | some s1 =>
        refine ⟨fun _ => rfl, ?_, ?_⟩
        · intro st' hst'
          rw [show connectSteps ⟨some s1, [], pol⟩ serial =
            [KStep.stopPolling, KStep.closeDev, KStep.clearSerial,
             KStep.setSerial serial, KStep.openDev, KStep.startPolling,
             KStep.loadSettings] from rfl] at hst'
          simp only [List.scanl, kexec, List.erase_nil, List.mem_cons,
            List.not_mem_nil, or_false] at hst'
          rcases hst' with h | h | h | h | h | h | h | h <;> subst h <;>
            intro s <;>
            simp [List.count_cons, List.count_nil] <;> split <;> omega
        · rfl
  · simp only [KinState.serialNo] at hs0
    simp only [KinState.openHandles] at hh
    subst hs0
    subst hh
    have hsteps : connectSteps ⟨some s0, [s0], pol⟩ serial =
        [KStep.stopPolling, KStep.closeDev, KStep.clearSerial,
         KStep.setSerial serial, KStep.openDev, KStep.startPolling,
         KStep.loadSettings] := rfl
    have herase : ([s0] : List Nat).erase s0 = [] := List.erase_cons_head s0 []
    refine ⟨fun _ => rfl, ?_, ?_⟩
    · intro st' hst'
      rw [hsteps] at hst'
      simp only [List.scanl, kexec, herase, List.mem_cons,
        List.not_mem_nil, or_false] at hst'
      rcases hst' with h | h | h | h | h | h | h | h <;> subst h <;>
        intro s <;>
        simp [List.count_cons, List.count_nil] <;> split <;> omega
    · rw [hsteps]
      simp only [List.foldl, kexec, herase]

/-- Witness for C7: an instrument connected to serial 5 (with its one open
handle) re-connects to serial 7. -/
theorem kinesis_connect_single_handle_witness :
    (kConnected ⟨some 5, [5], true⟩ = true →
      connectSteps ⟨some 5, [5], true⟩ 7 =
        [KStep.stopPolling, KStep.closeDev, KStep.clearSerial] ++
          [KStep.setSerial 7, KStep.openDev, KStep.startPolling,
           KStep.loadSettings]) ∧
    (∀ st' ∈ (connectSteps ⟨some 5, [5], true⟩ 7).scanl kexec
        ⟨some 5, [5], true⟩, noDoubleOpen st') ∧
    (connectSteps ⟨some 5, [5], true⟩ 7).foldl kexec ⟨some 5, [5], true⟩ =
      { serialNo := some 7, openHandles := [7], polling := true } :=
  kinesis_connect_single_handle ⟨some 5, [5], true⟩ 7 (Or.inr ⟨5, rfl, rfl⟩)

/-! ## Swabian Instruments TimeTagger private module (`time_tagger.py`) -/

/-! ### Subclass registration (`TimeTaggerModule.__init_subclass__`, C8) -/

/-- Python `s.endswith(suffix)`. -/
def strEndsWith (s suffix : String) : Bool :=
  decide (suffix.toList <:+ s.toList)

/-- The naming convention of `__init_subclass__`: the class name must end
in `Measurement` or `VirtualChannel`. -/
def conformingName (name : String) : Bool :=
  strEndsWith name "Measurement" || strEndsWith name "VirtualChannel"

/-- The error message raised for a non-conforming subclass name. -/
def badSubclassMsg : String :=
  "TimeTaggerModule should only be used as base class for *Measurement or *VirtualChannel subclasses."

/-- `TimeTaggerModule.__init_subclass__` acting on the process-wide
`__implementations` registry (a Python `set`, modelled as a duplicate-free
list): a non-conforming name raises at class-definition time and the
registry is untouched; a conforming name is added.  The
`getattr(cls, '__abstractmethod__', False)` guard is constantly `False` —
classes carry `__abstractmethods__` (plural), never that attribute — so a
conforming class is always added. -/
def registerSubclass (clsName : String) (impls : List String) :
    Except String (List String) :=
  if !conformingName clsName then Except.error badSubclassMsg
  else Except.ok (if clsName ∈ impls then impls else impls ++ [clsName])

/-- `TimeTaggerModule.implementations()`: a frozen (immutable) copy of the
registry, modelled as a finite set. -/
def implementationsView (impls : List String) : Finset String :=
  impls.toFinset

/-- C8: declaring a subclass with a name ending in neither reserved suffix
raises the definition-time error and registers nothing; a conforming name
is registered exactly once (also when re-declared, by set semantics), the
registry stays duplicate-free, and the class is readable from the frozen
view. -/
theorem time_tagger_subclass_registration (clsName : String)
    (impls : List String) (hnd : impls.Nodup) :
    (conformingName clsName = false →
      registerSubclass clsName impls = Except.error badSubclassMsg) ∧
    (conformingName clsName = true →
      ∃ impls2, registerSubclass clsName impls = Except.ok impls2 ∧
        impls2.count clsName = 1 ∧ impls2.Nodup ∧
        clsName ∈ implementationsView impls2) := by
  constructor
  · intro hbad
    simp [registerSubclass, hbad]
  · intro hgood
    refine ⟨if clsName ∈ impls then impls else impls ++ [clsName],
      by simp [registerSubclass, hgood], ?_, ?_, ?_⟩
    · by_cases hmem : clsName ∈ impls
      · rw [if_pos hmem]
        exact List.count_eq_one_of_mem hnd hmem
      · rw [if_neg hmem, List.count_append]
        rw [List.count_eq_zero_of_not_mem hmem]
        simp
    · by_cases hmem : clsName ∈ impls
      · rw [if_pos hmem]
        exact hnd
      · rw [if_neg hmem]
        rw [List.nodup_append]
        exact ⟨hnd, List.nodup_singleton _,
          fun a ha hb => hmem ((List.mem_singleton.mp hb) ▸ ha)⟩
    · by_cases hmem : clsName ∈ impls
      · rw [if_pos hmem]
        exact List.mem_toFinset.mpr hmem
      · rw [if_neg hmem]
        exact List.mem_toFinset.mpr (by simp)

/-- Witness for C8: registering `CounterMeasurement` into the empty
registry (and the rejection branch vacuously). -/
theorem time_tagger_subclass_registration_witness :
    conformingName "CounterMeasurement" = true ∧
    ((conformingName "CounterMeasurement" = false →
      registerSubclass "CounterMeasurement" [] =
        Except.error badSubclassMsg) ∧
    (conformingName "CounterMeasurement" = true →
      ∃ impls2, registerSubclass "CounterMeasurement" [] =
          Except.ok impls2 ∧
        impls2.count "CounterMeasurement" = 1 ∧ impls2.Nodup ∧
        "CounterMeasurement" ∈ implementationsView impls2)) :=
  ⟨by decide,
    time_tagger_subclass_registration "CounterMeasurement" [] List.nodup_nil⟩

/-! ### Lazily-cached API handles (`cached_api_object`, C9)

`CachedProperty.__get__` is embedded as a function of the required
parameters (each an attribute with a cached value and, optionally, a
declared validator), the current cache content, and the handle-computing
function.  Values are modelled as integers and validators as boolean
predicates; the claims at stake only concern which parameters fail. -/

/-- A qcodes parameter as seen by `CachedProperty.__get__`: its cached
value (`param.cache.get()`) and its declared validator (`param.vals`),
absent when the parameter has none. -/
structure TTParam where
  value : Int
  validator : Option (Int → Bool)

/-- Outcome of an access to the cached property. -/
inductive ApiGetOutcome (V : Type) where
  /-- The `RuntimeError` naming the parameters that failed validation. -/
  | notInitializedError (names : List String)
  /-- The returned handle; `computed` records whether the underlying
  handle-computing function was invoked (cache miss) or not (hit). -/
  | ok (v : V) (computed : Bool)

/-- Does this required parameter fail its validation check?  (A parameter
without validator only warns and is never collected.) -/
def failsValidation (p : String × TTParam) : Bool :=
  match p.2.validator with
  | some val => !val p.2.value
  | none => false

/-- The `not_initialized` set built by the validation loop (a Python `set`;
only membership matters below). -/
def notInitialized (required : List (String × TTParam)) : List String :=
  ((required.filter failsValidation).map Prod.fst).dedup

/-- The warnings emitted for required parameters without a validator. -/
def validatorWarnings (required : List (String × TTParam)) : List String :=
  (required.filter (fun p => p.2.validator.isNone)).map
    (fun _ => "All required parameters should have a validator.")

/-- `CachedProperty.__get__`: validate every required parameter's cached
value, raise the `RuntimeError` naming the failures when
`any(not_initialized)` (a Python truthiness test: some collected name is
non-empty), else return the cached object, computing and caching it on a
miss.  The first component is the list of emitted warnings. -/
def cachedPropertyGet {V : Type} (required : List (String × TTParam))
    (cached : Option V) (compute : Unit → V) :
    List String × ApiGetOutcome V :=
  let warns := validatorWarnings required
  if (notInitialized required).any (fun s => s != "") then
    (warns, ApiGetOutcome.notInitializedError (notInitialized required))
  else
    match cached with
    | some v => (warns, ApiGetOutcome.ok v false)
    | none => (warns, ApiGetOutcome.ok (compute ()) true)

/-- C9: accessing a cached API handle whose required parameters all carry a
declared validator (and have the non-empty names qcodes parameters have),
while at least one of them fails validation, raises the fatal
`RuntimeError`; the error names every required parameter that failed; and
the handle-computing function is not invoked — the result is the same for
every computing function. -/
theorem cached_api_get_unmet_prerequisites {V : Type}
    (required : List (String × TTParam)) (cached : Option V)
    (compute : Unit → V)
    (hvals : ∀ p ∈ required, p.2.validator.isSome)
    (hnames : ∀ p ∈ required, ¬ p.1 = "")
    (hfail : ∃ p ∈ required, failsValidation p = true) :
    cachedPropertyGet required cached compute =
      ([], ApiGetOutcome.notInitializedError (notInitialized required)) ∧
    (∀ p ∈ required, failsValidation p = true →
      p.1 ∈ notInitialized required) ∧
    (∀ g : Unit → V, cachedPropertyGet required cached g =
      cachedPropertyGet required cached compute) := by
  obtain ⟨p, hp, hpf⟩ := hfail
  have hmem : p.1 ∈ notInitialized required := by
    unfold notInitialized
    rw [List.mem_dedup]
    exact List.mem_map.mpr ⟨p, List.mem_filter.mpr ⟨hp, hpf⟩, rfl⟩
  have hcond : (notInitialized required).any (fun s => s != "") = true := by
    rw [List.any_eq_true]
    refine ⟨p.1, hmem, ?_⟩
    simpa using hnames p hp
  have hwarn : validatorWarnings required = [] := by
    unfold validatorWarnings
    rw [List.map_eq_nil_iff, List.filter_eq_nil_iff]
    intro q hq
    simpa [Option.isNone_iff_eq_none] using
      Option.isSome_iff_ne_none.mp (hvals q hq)
  refine ⟨?_, ?_, ?_⟩
  · simp [cachedPropertyGet, hcond, hwarn]
  · intro q hq hqf
    unfold notInitialized
    rw [List.mem_dedup]
    exact List.mem_map.mpr ⟨q, List.mem_filter.mpr ⟨hq, hqf⟩, rfl⟩
  · intro g
    simp [cachedPropertyGet, hcond]

/-- Witness for C9: one required parameter `frequency` whose positivity
validator fails on its cached value 0; the handle is not computed. -/
theorem cached_api_get_unmet_prerequisites_witness :
    cachedPropertyGet [("frequency", ⟨0, some (fun v => decide (0 < v))⟩)]
        (none : Option Nat) (fun _ => 42) =
      ([], ApiGetOutcome.notInitializedError
        (notInitialized
          [("frequency", ⟨0, some (fun v => decide (0 < v))⟩)])) ∧
    (∀ p ∈ [("frequency", ⟨0, some (fun v => decide (0 < v))⟩)],
      failsValidation p = true →
      p.1 ∈ notInitialized
        [("frequency", ⟨0, some (fun v => decide (0 < v))⟩)]) ∧
    (∀ g : Unit → Nat,
      cachedPropertyGet [("frequency", ⟨0, some (fun v => decide (0 < v))⟩)]
          (none : Option Nat) g =
        cachedPropertyGet
          [("frequency", ⟨0, some (fun v => decide (0 < v))⟩)]
          (none : Option Nat) (fun _ => 42)) :=
  cached_api_get_unmet_prerequisites
    [("frequency", ⟨0, some (fun v => decide (0 < v))⟩)] none (fun _ => 42)
    (by intro p hp; simp at hp; subst hp; rfl)
    (by intro p hp; simp at hp; subst hp; simp)
    ⟨("frequency", ⟨0, some (fun v => decide (0 < v))⟩), by simp, rfl⟩
